import Mathlib

/-!
Shallow embedding of the dt-toolbox execution monitor (src/src/dt_toolbox):
the PII redactor (`redaction.py`), the notification dispatch and summary
lifecycle (`monitor.py`), configuration validation (`config.py` /
`types.py`), and file-size/upload plumbing (`utils.py`, `storage.py`).
Strings are modelled as `List Char`; Python `datetime` instants as `Nat`
timestamps (seconds); Python `float` file sizes as exact rationals
(`os.path.getsize(..) / 1024` on byte counts well below 2^53 is exact, so
the comparison with the integer threshold is faithfully modelled in `ℚ`).
Raised Python exceptions are modelled with `Except`.
-/

/-- ASCII lowering of one character, modelling the effect of `re.IGNORECASE`
on the ASCII pattern text used throughout the repository. -/
def lowerChar (c : Char) : Char := c.toLower

/-- Case-insensitive "the pattern is a starting segment of the text" test. -/
def ciStartsWith : List Char → List Char → Bool
  | [], _ => true
  | _ :: _, [] => false
  | p :: ps, s :: ss => (lowerChar p == lowerChar s) && ciStartsWith ps ss

/-- Case-insensitive occurrence test: some suffix of `s` starts with `p`. -/
def ciOccursIn (p s : List Char) : Bool :=
  s.tails.any (fun t => ciStartsWith p t)

/-- Worker for `ciReplace`, structurally recursive on a fuel argument so that
it computes by kernel reduction; each step consumes at least one character, so
fuel `s.length` always suffices and the `0` fallback is never reached from
`ciReplace`. -/
def ciReplaceGo (p r : List Char) : Nat → List Char → List Char
  | _, [] => []
  | 0, s => s
  | fuel + 1, c :: rest =>
    if p ≠ [] ∧ ciStartsWith p (c :: rest) = true then
      r ++ ciReplaceGo p r fuel (rest.drop (p.length - 1))
    else
      c :: ciReplaceGo p r fuel rest

/-- Model of `re.compile(pattern, re.IGNORECASE).sub(replacement, text)` for a
nonempty regex pattern containing no metacharacters (a literal): the scan is
left to right, each non-overlapping case-insensitive occurrence of `p` is
replaced by `r`, and scanning resumes after the replaced occurrence.  An empty
pattern never fires here (the configured pattern sets of interest are all
nonempty literals). -/
def ciReplace (p r s : List Char) : List Char :=
  ciReplaceGo p r s.length s

/-- Embeds `RedactionConfig` from `types.py` (fields used by the redactor);
patterns are kept as literal character lists, matching the regex fragment
modelled by `ciReplace`. -/
structure RedactionConfig where
  enabled : Bool
  patterns : List (List Char)
  replacement : List Char
deriving Repr

/-- Embeds `Redactor.redact` from `redaction.py`: when disabled, the identity;
otherwise each configured pattern is substituted in order, each acting on the
result of the previous one. -/
def Redactor.redact (cfg : RedactionConfig) (text : List Char) : List Char :=
  if cfg.enabled = false then text
  else cfg.patterns.foldl (fun res p => ciReplace p cfg.replacement res) text

/-- Case-sensitive "the first list is a starting segment of the second". -/
def exactStartsWith : List Char → List Char → Bool
  | [], _ => true
  | _ :: _, [] => false
  | p :: ps, s :: ss => (p == s) && exactStartsWith ps ss

/-- Case-sensitive substring occurrence test. -/
def exactOccursIn (p s : List Char) : Bool :=
  s.tails.any (fun t => exactStartsWith p t)

/-- Python values as they flow through `Redactor.redact_dict`: strings,
scalar leaves (ints, booleans, `None`), lists, and string-keyed dicts
(insertion-ordered, hence association lists). -/
inductive PyValue where
  | str : List Char → PyValue
  | int : Int → PyValue
  | bool : Bool → PyValue
  | none : PyValue
  | list : List PyValue → PyValue
  | dict : List (String × PyValue) → PyValue
deriving Repr

mutual
/-- Embeds the comprehension body of `Redactor.redact_dict` in `redaction.py`
(the enabled guard is hoisted into the `Redactor.redact_dict` wrapper below:
the inner recursive `self.redact_dict` calls re-check `config.enabled`, which
is the same constant `true` whenever this worker is reached). -/
def redact_pairs (cfg : RedactionConfig) :
    List (String × PyValue) → List (String × PyValue)
  | [] => []
  | (k, v) :: rest => (k, redact_entry cfg v) :: redact_pairs cfg rest

/-- One dictionary value, as dispatched by the `isinstance` chain of
`Redactor.redact_dict`: strings are redacted, dicts recursed into, lists
handled element-wise, anything else passed through. -/
def redact_entry (cfg : RedactionConfig) : PyValue → PyValue
  | .str s => .str (Redactor.redact cfg s)
  | .dict d => .dict (redact_pairs cfg d)
  | .list items => .list (redact_items cfg items)
  | v => v

/-- One list element, as dispatched by the inner conditional expression of
`Redactor.redact_dict`: a string is redacted, a dict recursed into, and any
other element — including a nested list — is kept as is. -/
def redact_items (cfg : RedactionConfig) : List PyValue → List PyValue
  | [] => []
  | .str s :: rest => .str (Redactor.redact cfg s) :: redact_items cfg rest
  | .dict d :: rest => .dict (redact_pairs cfg d) :: redact_items cfg rest
  | item :: rest => item :: redact_items cfg rest
end

/-- Embeds `Redactor.redact_dict` from `redaction.py`: identity when
redaction is disabled, otherwise the per-entry transformation above. -/
def Redactor.redact_dict (cfg : RedactionConfig)
    (data : List (String × PyValue)) : List (String × PyValue) :=
  if cfg.enabled = false then data else redact_pairs cfg data

mutual
/-- Modelled from the spec (refinement reference, deliberately NOT translated
from the code): "`redact_structured(value) -> value` recurses through
mappings and sequences, replacing every string leaf; non-string leaves pass
through unchanged."  Compared against `Redactor.redact_dict` below. -/
def spec_structured (cfg : RedactionConfig) : PyValue → PyValue
  | .str s => .str (Redactor.redact cfg s)
  | .dict kvs => .dict (spec_structured_pairs cfg kvs)
  | .list items => .list (spec_structured_items cfg items)
  | v => v

/-- Mapping case of the spec-side `redact_structured`. -/
def spec_structured_pairs (cfg : RedactionConfig) :
    List (String × PyValue) → List (String × PyValue)
  | [] => []
  | (k, v) :: rest => (k, spec_structured cfg v) :: spec_structured_pairs cfg rest

/-- Sequence case of the spec-side `redact_structured`. -/
def spec_structured_items (cfg : RedactionConfig) : List PyValue → List PyValue
  | [] => []
  | item :: rest => spec_structured cfg item :: spec_structured_items cfg rest
end

mutual
/-- Holds when no list occurs directly inside a list anywhere in the value
(the shape on which the code's `redact_dict` does reach every string leaf). -/
def value_flat : PyValue → Bool
  | .dict kvs => pairs_flat kvs
  | .list items => items_flat items
  | _ => true

/-- `value_flat` over the entries of a mapping. -/
def pairs_flat : List (String × PyValue) → Bool
  | [] => true
  | (_, v) :: rest => value_flat v && pairs_flat rest

/-- `value_flat` over the elements of a sequence, additionally rejecting an
element that is itself a list. -/
def items_flat : List PyValue → Bool
  | [] => true
  | .list _ :: _ => false
  | item :: rest => value_flat item && items_flat rest
end

mutual
/-- All string leaves of a value, in traversal order. -/
def value_leaves : PyValue → List (List Char)
  | .str s => [s]
  | .dict kvs => pairs_leaves kvs
  | .list items => items_leaves items
  | _ => []

/-- All string leaves reachable from a mapping. -/
def pairs_leaves : List (String × PyValue) → List (List Char)
  | [] => []
  | (_, v) :: rest => value_leaves v ++ pairs_leaves rest

/-- All string leaves reachable from a sequence. -/
def items_leaves : List PyValue → List (List Char)
  | [] => []
  | item :: rest => value_leaves item ++ items_leaves rest
end

/-- Embeds `NotificationLevel` from `types.py`. -/
inductive NotificationLevel where
  | SUCCESS | WARNING | ERROR | CRITICAL
deriving DecidableEq, Repr

/-- Embeds `ExecutionSummary` from `types.py`.  `datetime` instants are `Nat`
timestamps; the float `duration_seconds` is their exact integer difference. -/
structure ExecutionSummary where
  app_name : String
  owner : String
  run_id : String
  trace_id : String
  start_time : Nat
  end_time : Nat
  duration_seconds : Int
  exit_code : Int
  success : Bool
  error_message : Option String
  stacktrace : Option String
  tags : List String
  log_file : String
  log_url : Option String
deriving DecidableEq, Repr

/-- Embeds `NotificationConfig` from `types.py` (the fields the monitor's
dispatch logic reads; the SMTP/webhook transport fields feed only
`create_notifiers`, which is abstracted into the `notifiers` list below). -/
structure NotificationConfig where
  enabled : Bool
  notify_on_success : Bool
  notify_on_failure : Bool
  recipients : List String
deriving DecidableEq, Repr

/-- Embeds `StorageConfig` from `types.py` (the fields `create_summary`
reads; backend credentials feed only `create_storage_backend`, abstracted
into the backend function below). -/
structure StorageConfig where
  enabled : Bool
  upload_threshold_kb : Int
deriving DecidableEq, Repr

/-- Embeds `MonitorConfig` from `types.py`. -/
structure MonitorConfig where
  app_name : String
  owner : String
  tags : List String
  log_dir : String
  notification : NotificationConfig
  storage : StorageConfig
  redaction : RedactionConfig
  run_id : Option String
  trace_id : Option String

/-- A notification channel, as the monitor sees it: `notifier.send(summary,
level, recipients)` either returns a `Bool` or raises (`.error`). -/
def Notifier : Type :=
  ExecutionSummary → NotificationLevel → List String → Except String Bool

/-- A storage backend, as `create_summary` sees it:
`backend.upload_file(local_path, remote_path)` either returns an optional
URL or raises (`.error`). -/
def StorageUpload : Type := String → String → Except String (Option String)

/-- Embeds `MonitorState` from `monitor.py`: configuration, log-file path,
start instant, the at-most-one summary slot, and the wired collaborators
(`create_notifiers` / `create_storage_backend` results). -/
structure MonitorState where
  config : MonitorConfig
  log_file : String
  start_time : Nat
  summary : Option ExecutionSummary
  notifiers : List Notifier
  storage_backend : Option StorageUpload

/-- Embeds `get_file_size_kb` from `utils.py`: the `OSError` branch (file
missing or unreadable, modelled as the `none` filesystem answer) returns
`0.0`; otherwise the byte count divided by 1024. -/
def get_file_size_kb (fs : Option Nat) : ℚ :=
  match fs with
  | Option.none => 0
  | some bytes => (bytes : ℚ) / 1024

/-- Embeds `os.path.basename` for the slash-separated paths the monitor
builds: the part after the last `/`. -/
def basename (p : String) : String := (p.splitOn "/").getLastD p

/-- The archival step of `MonitorState.create_summary` in `monitor.py`:
yields the `log_url` to record and whether an upload call was made.  The
`try/except` around `upload_file` is the match on the backend's `Except`:
a raise is caught and logged, leaving `log_url` at `None`. -/
def uploadStep (st : MonitorState) (fs : Option Nat) : Option String × Bool :=
  match st.storage_backend with
  | Option.none => (Option.none, false)
  | some backend =>
    if st.log_file = "" then (Option.none, false)
    else if get_file_size_kb fs > (st.config.storage.upload_threshold_kb : ℚ) then
      match backend st.log_file (st.config.app_name ++ "/" ++ basename st.log_file) with
      | .ok url => (url, true)
      | .error _ => (Option.none, true)
    else (Option.none, false)

/-- Result of `create_summary`: the updated state, the summary it returned,
and whether an archival upload was attempted. -/
structure SummaryResult where
  state : MonitorState
  summary : ExecutionSummary
  uploadAttempted : Bool

/-- Embeds `MonitorState.create_summary` from `monitor.py`.  `fs` is the
filesystem's answer for the log file's byte size (`none` = `OSError`),
`end_time` the `datetime.now()` instant. -/
def MonitorState.create_summary (st : MonitorState) (fs : Option Nat)
    (end_time : Nat) (exit_code : Int) (error_message : Option String)
    (stacktrace : Option String) : SummaryResult :=
  let upl := uploadStep st fs
  let summary : ExecutionSummary := {
    app_name := st.config.app_name
    owner := st.config.owner
    run_id := st.config.run_id.getD ""
    trace_id := st.config.trace_id.getD ""
    start_time := st.start_time
    end_time := end_time
    duration_seconds := (end_time : Int) - (st.start_time : Int)
    exit_code := exit_code
    success := exit_code == 0 && error_message.isNone
    error_message := error_message
    stacktrace := stacktrace
    tags := st.config.tags
    log_file := st.log_file
    log_url := upl.1 }
  ⟨{ st with summary := some summary }, summary, upl.2⟩

/-- Level selection at the head of `MonitorState.send_notifications`. -/
def notificationLevel (summary : ExecutionSummary) : NotificationLevel :=
  if summary.success then NotificationLevel.SUCCESS else NotificationLevel.ERROR

/-- Routing flag chosen alongside the level in
`MonitorState.send_notifications`. -/
def shouldNotify (cfg : NotificationConfig) (summary : ExecutionSummary) : Bool :=
  if summary.success then cfg.notify_on_success else cfg.notify_on_failure

/-- The `for notifier in self.notifiers` loop of
`MonitorState.send_notifications`, with its per-iteration `try/except`: a
raising send (`.error`) is caught and logged and the loop continues with the
next channel; every channel's outcome is recorded in order. -/
def sendLoop (notifiers : List Notifier) (summary : ExecutionSummary)
    (level : NotificationLevel) (recipients : List String) :
    List (Except String Bool) :=
  match notifiers with
  | [] => []
  | n :: rest =>
    match n summary level recipients with
    | .error e => .error e :: sendLoop rest summary level recipients
    | .ok b => .ok b :: sendLoop rest summary level recipients

/-- Embeds `MonitorState.send_notifications` from `monitor.py`, returning the
trace of channel send attempts (level used, channel outcome); the early
`return` when notification is suppressed is the empty trace. -/
def MonitorState.send_notifications (st : MonitorState)
    (summary : ExecutionSummary) : List (NotificationLevel × Except String Bool) :=
  let level := notificationLevel summary
  if shouldNotify st.config.notification summary = false then []
  else
    (sendLoop st.notifiers summary level st.config.notification.recipients).map
      (fun r => (level, r))

/-- An uncaught Python exception as the hooks see it: `str(exc_value)` and
the `traceback.format_exception` rendering. -/
structure PyExc where
  message : String
  trace : String
deriving DecidableEq, Repr

/-- Embeds `_exception_handler` from `monitor.py` for a monitored run
(`_monitor_state` present): records the failure summary (exit code 1,
message, formatted stack trace) and dispatches notifications. -/
def exception_handler (st : MonitorState) (fs : Option Nat) (now : Nat)
    (e : PyExc) : MonitorState × List (NotificationLevel × Except String Bool) :=
  let r := st.create_summary fs now 1 (some e.message) (some e.trace)
  (r.state, r.state.send_notifications r.summary)

/-- Embeds `_exit_handler` from `monitor.py` for a monitored run: if a
summary already exists nothing happens; otherwise the success summary is
created and notifications dispatched.  Also returns how many summaries this
hook created. -/
def exit_handler (st : MonitorState) (fs : Option Nat) (now : Nat) :
    MonitorState × List (NotificationLevel × Except String Bool) × Nat :=
  match st.summary with
  | some _ => (st, [], 0)
  | Option.none =>
    let r := st.create_summary fs now 0 Option.none Option.none
    (r.state, r.state.send_notifications r.summary, 1)

/-- Outcome of one monitored process teardown: final state, number of
summaries created across both hooks, the notification attempts made by each
hook, and what the process ultimately propagates. -/
structure LifecycleResult where
  final : MonitorState
  created : Nat
  excAttempts : List (NotificationLevel × Except String Bool)
  exitAttempts : List (NotificationLevel × Except String Bool)
  propagated : Except PyExc Unit

/-- The teardown sequence the interpreter runs for a monitored process: on an
uncaught exception `sys.excepthook` (`_exception_handler`) fires and then the
`atexit` hook (`_exit_handler`); on normal return only the `atexit` hook.
The original exception is never swallowed by either hook and terminates the
process (`propagated`). -/
def runLifecycle (st : MonitorState) (fs : Option Nat) (now : Nat)
    (outcome : Except PyExc Unit) : LifecycleResult :=
  match outcome with
  | .error e =>
    let r1 := exception_handler st fs now e
    let r2 := exit_handler r1.1 fs now
    ⟨r2.1, 1 + r2.2.2, r1.2, r2.2.1, .error e⟩
  | .ok _ =>
    let r1 := exit_handler st fs now
    ⟨r1.1, r1.2.2, [], r1.2.1, .ok ()⟩

/-- The fatal configuration failures of `MonitorConfig(**merged)` relevant to
the monitor's identity fields. -/
inductive ConfigError where
  | missing_app_name
  | missing_owner
  | invalid_owner_email
deriving DecidableEq, Repr

/-- The merged configuration dictionary handed by `build_config` to
`MonitorConfig(**merged)` in `config.py`, restricted to the fields the
monitor reads; the identity fields are optional because the merged dict may
lack them. -/
structure RawConfig where
  app_name : Option String
  owner : Option String
  tags : List String
  log_dir : String
  notification : NotificationConfig
  storage : StorageConfig
  redaction : RedactionConfig
  run_id : Option String
  trace_id : Option String

/-- Modelled from the spec: pydantic's `EmailStr` validation of
`MonitorConfig.owner` ("invalid email-shaped owner" is a fatal
`ConfigError`); the validator itself is library code, not in `src/`.  An
email-shaped string has exactly one `@` with nonempty sides and a dot in the
domain. -/
def isEmailShaped (s : String) : Bool :=
  let cs := s.toList
  let l := cs.takeWhile (fun c => !(c == '@'))
  let d := (cs.dropWhile (fun c => !(c == '@'))).drop 1
  (cs.count '@' == 1) && !l.isEmpty && !d.isEmpty && d.contains '.'

/-- Modelled from the spec: the pydantic validation performed by
`MonitorConfig(**merged)` in `build_config` ("missing required identity
fields, invalid email-shaped owner ... surfaces immediately to the
caller"); pydantic itself is library code, not in `src/`. -/
def validate_monitor_config (raw : RawConfig) : Except ConfigError MonitorConfig :=
  match raw.app_name with
  | Option.none => .error ConfigError.missing_app_name
  | some an =>
    match raw.owner with
    | Option.none => .error ConfigError.missing_owner
    | some ow =>
      if isEmailShaped ow then
        .ok { app_name := an, owner := ow, tags := raw.tags
              log_dir := raw.log_dir, notification := raw.notification
              storage := raw.storage, redaction := raw.redaction
              run_id := raw.run_id, trace_id := raw.trace_id }
      else .error ConfigError.invalid_owner_email

/-- Embeds `get_log_file_path` from `utils.py` (path construction only; the
`ensure_dir` filesystem side effect is outside the model). -/
def get_log_file_path (app_name log_dir run_id : String) : String :=
  log_dir ++ "/" ++ app_name ++ "/" ++ run_id ++ ".log"

/-- What `init_monitoring` has accomplished when it returns: the monitor
state it installed, and the two process-wide hooks it registered (both set
only after validation succeeded). -/
structure InitResult where
  state : MonitorState
  excepthook_installed : Bool
  exit_hook_registered : Bool

/-- Embeds `init_monitoring` from `monitor.py`: build and validate the
configuration (raising `ConfigError` on failure, before anything else
happens), fill in generated run/trace ids when absent or empty (Python
truthiness of `config.run_id`), compute the log-file path, build the
`MonitorState` (wiring the storage backend only when storage is enabled),
and only then install the exception hook and register the exit handler.
`gen_run_id`/`gen_trace_id` stand for the `generate_run_id`/
`generate_trace_id` draws, `notifiers` for `create_notifiers(config)`, and
`backend` for `create_storage_backend(config.storage)`. -/
def init_monitoring (raw : RawConfig) (gen_run_id gen_trace_id : String)
    (now : Nat) (notifiers : List Notifier) (backend : StorageUpload) :
    Except ConfigError InitResult :=
  match validate_monitor_config raw with
  | .error e => .error e
  | .ok cfg0 =>
    let rid := if cfg0.run_id.getD "" = "" then gen_run_id else cfg0.run_id.getD ""
    let tid := if cfg0.trace_id.getD "" = "" then gen_trace_id else cfg0.trace_id.getD ""
    let cfg := { cfg0 with run_id := some rid, trace_id := some tid }
    let log_file := get_log_file_path cfg.app_name cfg.log_dir rid
    let st : MonitorState := {
      config := cfg
      log_file := log_file
      start_time := now
      summary := Option.none
      notifiers := notifiers
      storage_backend := if cfg.storage.enabled then some backend else Option.none }
    .ok { state := st, excepthook_installed := true, exit_hook_registered := true }

/-- Counterexample configuration for the redaction claim: the pattern `ED`
is a configured sensitive pattern, and the replacement is the repository's
default `***REDACTED***` from `types.py`. -/
def cfgCE : RedactionConfig :=
  { enabled := true, patterns := ["ED".toList], replacement := "***REDACTED***".toList }

/-- Witness configuration for the amended redaction claim. -/
def cfgWit : RedactionConfig :=
  { enabled := true, patterns := ["secret".toList], replacement := "***REDACTED***".toList }

/-- Witness configuration for the structured-redaction claims. -/
def cfgS : RedactionConfig :=
  { enabled := true, patterns := ["secret".toList], replacement := "XXX".toList }

/-- Counterexample value for the structured-redaction claim: a string leaf
two sequence levels deep. -/
def vNested : List (String × PyValue) :=
  [("k", PyValue.list [PyValue.list [PyValue.str "secret".toList]])]

/-- Witness value for the amended structured-redaction claim. -/
def vFlat : List (String × PyValue) :=
  [("user", PyValue.str "john".toList),
   ("nested", PyValue.dict [("token", PyValue.str "my secret".toList)]),
   ("items", PyValue.list [PyValue.str "secret one".toList, PyValue.int 7]),
   ("count", PyValue.int 3)]

/-- A channel whose send raises. -/
def notifRaises : Notifier := fun _ _ _ => .error "boom"

/-- A channel whose send succeeds. -/
def notifSucceeds : Notifier := fun _ _ _ => .ok true

/-- A storage backend whose upload succeeds with a URL. -/
def backendUp : StorageUpload := fun _ _ => .ok (some "s3://bucket/etl/r1.log")

/-- A storage backend whose upload raises. -/
def backendRaises : StorageUpload := fun _ _ => .error "denied"

/-- Concrete monitor configuration used by the witnesses:
`notify_on_success=False, notify_on_failure=True`, storage enabled with the
default 200 KB threshold. -/
def cfgMon : MonitorConfig :=
  { app_name := "etl", owner := "a@b.com", tags := [], log_dir := "logs"
    notification := { enabled := true, notify_on_success := false
                      notify_on_failure := true, recipients := ["alerts@co.com"] }
    storage := { enabled := true, upload_threshold_kb := 200 }
    redaction := { enabled := true, patterns := [], replacement := [] }
    run_id := some "r1", trace_id := some "t1" }

/-- Concrete fresh monitor state (no summary yet) with one raising and one
succeeding channel and no storage backend. -/
def stWit : MonitorState :=
  { config := cfgMon, log_file := "logs/etl/r1.log", start_time := 100
    summary := Option.none, notifiers := [notifRaises, notifSucceeds]
    storage_backend := Option.none }

/-- `stWit` with a working storage backend wired in. -/
def stUp : MonitorState := { stWit with storage_backend := some backendUp }

/-- `stWit` with a raising storage backend wired in. -/
def stUpFail : MonitorState := { stWit with storage_backend := some backendRaises }

/-- A concrete failing-run summary. -/
def sumFail : ExecutionSummary :=
  { app_name := "etl", owner := "a@b.com", run_id := "r1", trace_id := "t1"
    start_time := 100, end_time := 130, duration_seconds := 30, exit_code := 1
    success := false, error_message := some "x", stacktrace := some "tb"
    tags := [], log_file := "logs/etl/r1.log", log_url := Option.none }

/-- A concrete successful-run summary. -/
def sumOk : ExecutionSummary :=
  { sumFail with
    exit_code := 0
    success := true
    error_message := Option.none
    stacktrace := Option.none }

/-- A raw configuration whose owner is not email-shaped. -/
def rawBadOwner : RawConfig :=
  { app_name := some "etl", owner := some "not-an-email", tags := []
    log_dir := "logs", notification := cfgMon.notification
    storage := cfgMon.storage, redaction := cfgMon.redaction
    run_id := Option.none, trace_id := Option.none }

theorem ciStartsWith_nil_false (p : List Char) (hp : p ≠ []) :
    ciStartsWith p [] = false := by
  cases p with
  | nil => exact absurd rfl hp
  | cons a as => rfl

theorem ciOccursIn_cons (p : List Char) (c : Char) (rest : List Char) :
    ciOccursIn p (c :: rest) =
      (ciStartsWith p (c :: rest) || ciOccursIn p rest) := by
  simp [ciOccursIn, List.tails]

/-- A text with no case-insensitive occurrence of `p` is left unchanged by the
substitution. -/
theorem ciReplaceGo_of_not_occurs (p r : List Char) (fuel : Nat)
    (s : List Char) (h : ciOccursIn p s = false) :
    ciReplaceGo p r fuel s = s := by
  induction fuel generalizing s with
  | zero => cases s <;> rfl
  | succ fuel ih =>
    cases s with
    | nil => rfl
    | cons c rest =>
      rw [ciOccursIn_cons] at h
      have h1 : ciStartsWith p (c :: rest) = false := by
        cases hsw : ciStartsWith p (c :: rest) <;> simp [hsw] at h ⊢
      have h2 : ciOccursIn p rest = false := by
        cases ho : ciOccursIn p rest <;> simp [ho] at h ⊢
      rw [ciReplaceGo, if_neg (by simp [h1]), ih rest h2]

theorem ciReplace_of_not_occurs (p r : List Char) (s : List Char)
    (h : ciOccursIn p s = false) : ciReplace p r s = s :=
  ciReplaceGo_of_not_occurs p r s.length s h

theorem redact_foldl_of_no_occurrence (ps : List (List Char)) (r : List Char)
    (s : List Char) (h : ∀ p ∈ ps, ciOccursIn p s = false) :
    ps.foldl (fun res p => ciReplace p r res) s = s := by
  induction ps with
  | nil => rfl
  | cons p ps ih =>
    simp only [List.foldl_cons]
    rw [ciReplace_of_not_occurs p r s (h p (by simp))]
    exact ih (fun q hq => h q (by simp [hq]))

/-- A text in which no configured pattern occurs is a fixpoint of `redact`. -/
theorem redact_of_no_occurrence (cfg : RedactionConfig) (s : List Char)
    (h : ∀ p ∈ cfg.patterns, ciOccursIn p s = false) :
    Redactor.redact cfg s = s := by
  unfold Redactor.redact
  cases he : cfg.enabled with
  | false => simp
  | true =>
    simp only [Bool.true_eq_false, if_false]
    exact redact_foldl_of_no_occurrence cfg.patterns cfg.replacement s h

/-- C2 counterexample: with redaction enabled and the configured sensitive
pattern `ED` (replacement: the repository default `***REDACTED***`), the
input `"ED"` consists of a substring matched by the pattern, yet
`redact "ED" = "***REDACTED***"` still contains the matched substring `ED`,
and `redact` is not idempotent on it: the second pass rewrites the
replacement text again. -/
theorem redact_not_idempotent_counterexample :
    exactOccursIn "ED".toList (Redactor.redact cfgCE "ED".toList) = true ∧
    Redactor.redact cfgCE (Redactor.redact cfgCE "ED".toList) ≠
      Redactor.redact cfgCE "ED".toList := by
  decide

/-- C2 (amended): for every configuration and input string such that no
configured pattern occurs case-insensitively in `redact`'s output — in
particular the output is then free of every matched sensitive substring —
`redact` is idempotent: `redact (redact x) = redact x`. -/
theorem redact_idempotent_of_clean_output (cfg : RedactionConfig) (x : List Char)
    (h : ∀ p ∈ cfg.patterns, ciOccursIn p (Redactor.redact cfg x) = false) :
    Redactor.redact cfg (Redactor.redact cfg x) = Redactor.redact cfg x :=
  redact_of_no_occurrence cfg (Redactor.redact cfg x) h

/-- Witness for the amended C2 theorem at a concrete configuration and
input. -/
theorem redact_idempotent_of_clean_output_witness :
    (∀ p ∈ cfgWit.patterns,
        ciOccursIn p (Redactor.redact cfgWit "my Secret here".toList) = false) ∧
    Redactor.redact cfgWit (Redactor.redact cfgWit "my Secret here".toList) =
      Redactor.redact cfgWit "my Secret here".toList :=
  ⟨by decide, redact_idempotent_of_clean_output cfgWit "my Secret here".toList (by decide)⟩

mutual
theorem redact_entry_eq_spec (cfg : RedactionConfig) :
    ∀ v : PyValue, value_flat v = true → redact_entry cfg v = spec_structured cfg v
  | .str _, _ => rfl
  | .int _, _ => rfl
  | .bool _, _ => rfl
  | .none, _ => rfl
  | .dict d, h => congrArg PyValue.dict (redact_pairs_eq_spec cfg d h)
  | .list items, h => congrArg PyValue.list (redact_items_eq_spec cfg items h)

theorem redact_pairs_eq_spec (cfg : RedactionConfig) :
    ∀ kvs : List (String × PyValue), pairs_flat kvs = true →
      redact_pairs cfg kvs = spec_structured_pairs cfg kvs
  | [], _ => rfl
  | (k, v) :: rest, h => by
    have h1 : value_flat v = true ∧ pairs_flat rest = true := by
      have := h; simp [pairs_flat, Bool.and_eq_true] at this; exact this
    show (k, redact_entry cfg v) :: redact_pairs cfg rest
        = (k, spec_structured cfg v) :: spec_structured_pairs cfg rest
    rw [redact_entry_eq_spec cfg v h1.1, redact_pairs_eq_spec cfg rest h1.2]

theorem redact_items_eq_spec (cfg : RedactionConfig) :
    ∀ items : List PyValue, items_flat items = true →
      redact_items cfg items = spec_structured_items cfg items
  | [], _ => rfl
  | .str s :: rest, h => by
    have h2 : items_flat rest = true := by
      have := h; simp [items_flat, value_flat, Bool.and_eq_true] at this; exact this
    show PyValue.str (Redactor.redact cfg s) :: redact_items cfg rest
        = PyValue.str (Redactor.redact cfg s) :: spec_structured_items cfg rest
    rw [redact_items_eq_spec cfg rest h2]
  | .int i :: rest, h => by
    have h2 : items_flat rest = true := by
      have := h; simp [items_flat, value_flat, Bool.and_eq_true] at this; exact this
    show PyValue.int i :: redact_items cfg rest
        = PyValue.int i :: spec_structured_items cfg rest
    rw [redact_items_eq_spec cfg rest h2]
  | .bool b :: rest, h => by
    have h2 : items_flat rest = true := by
      have := h; simp [items_flat, value_flat, Bool.and_eq_true] at this; exact this
    show PyValue.bool b :: redact_items cfg rest
        = PyValue.bool b :: spec_structured_items cfg rest
    rw [redact_items_eq_spec cfg rest h2]
  | .none :: rest, h => by
    have h2 : items_flat rest = true := by
      have := h; simp [items_flat, value_flat, Bool.and_eq_true] at this; exact this
    show PyValue.none :: redact_items cfg rest
        = PyValue.none :: spec_structured_items cfg rest
    rw [redact_items_eq_spec cfg rest h2]
  | .dict d :: rest, h => by
    have h1 : pairs_flat d = true ∧ items_flat rest = true := by
      have := h; simp [items_flat, value_flat, Bool.and_eq_true] at this; exact this
    show PyValue.dict (redact_pairs cfg d) :: redact_items cfg rest
        = spec_structured cfg (PyValue.dict d) :: spec_structured_items cfg rest
    rw [redact_pairs_eq_spec cfg d h1.1, redact_items_eq_spec cfg rest h1.2]
    rfl
  | .list _ :: _, h => by
    simp [items_flat] at h
end

/-- C3 counterexample: with redaction enabled and the configured pattern
`secret`, the nested value `{"k": [["secret"]]}` keeps its (unique) string
leaf literally equal to the original sensitive string — the list nested
inside a list is passed through untouched by `redact_dict` — even though
`redact` rewrites that string and the spec-side `redact_structured` would
redact the leaf. -/
theorem redact_dict_nested_list_counterexample :
    pairs_leaves (Redactor.redact_dict cfgS vNested) = ["secret".toList] ∧
    pairs_leaves (spec_structured_pairs cfgS vNested) = ["XXX".toList] ∧
    Redactor.redact cfgS "secret".toList ≠ "secret".toList := by
  decide

/-- C3 (amended): with redaction enabled, on every nested value in which no
sequence occurs directly inside another sequence, `redact_dict` coincides
with the spec's `redact_structured`: same shape, every string leaf (through
mappings, and through sequences not nested in sequences) redacted, every
non-string leaf unchanged. -/
theorem redact_dict_eq_spec_on_flat_values (cfg : RedactionConfig)
    (data : List (String × PyValue)) (he : cfg.enabled = true)
    (hflat : pairs_flat data = true) :
    Redactor.redact_dict cfg data = spec_structured_pairs cfg data := by
  unfold Redactor.redact_dict
  rw [he]
  simp only [Bool.true_eq_false, if_false]
  exact redact_pairs_eq_spec cfg data hflat

/-- Witness for the amended C3 theorem at a concrete nested value. -/
theorem redact_dict_eq_spec_on_flat_values_witness :
    cfgS.enabled = true ∧ pairs_flat vFlat = true ∧
    Redactor.redact_dict cfgS vFlat = spec_structured_pairs cfgS vFlat :=
  ⟨rfl, by decide, redact_dict_eq_spec_on_flat_values cfgS vFlat rfl (by decide)⟩

/-- The dispatch loop is the per-channel send map: its trace has one entry
per channel, each channel's own outcome, regardless of raises. -/
theorem sendLoop_eq_map (notifiers : List Notifier) (summary : ExecutionSummary)
    (level : NotificationLevel) (recipients : List String) :
    sendLoop notifiers summary level recipients
      = notifiers.map (fun n => n summary level recipients) := by
  induction notifiers with
  | nil => rfl
  | cons n rest ih =>
    cases h : n summary level recipients <;> simp [sendLoop, h, ih]

/-- C5: during a dispatch (`should_notify` holds), the outcome trace is
exactly one entry per configured channel, in order, each the result of that
channel's own send — a raising channel is caught, never aborts the loop,
and never escapes `send_notifications` (whose result is this total trace). -/
theorem channel_failure_isolation (st : MonitorState) (summary : ExecutionSummary)
    (h : shouldNotify st.config.notification summary = true) :
    st.send_notifications summary =
      st.notifiers.map (fun n =>
        (notificationLevel summary,
         n summary (notificationLevel summary) st.config.notification.recipients)) := by
  unfold MonitorState.send_notifications
  rw [h]
  simp only [Bool.true_eq_false, if_false]
  rw [sendLoop_eq_map, List.map_map]
  rfl

/-- Witness for C5: one raising channel plus one succeeding channel — both
are attempted, in order, and the raise is contained. -/
theorem channel_failure_isolation_witness :
    stWit.send_notifications sumFail =
      [(NotificationLevel.ERROR, Except.error "boom"),
       (NotificationLevel.ERROR, Except.ok true)] :=
  (channel_failure_isolation stWit sumFail rfl).trans rfl

/-- C4: the routing policy of `send_notifications` — a successful summary is
dispatched at level `success` to every configured channel exactly when
`notify_on_success`, and a failing summary at the non-success level `error`
to every configured channel exactly when `notify_on_failure`; otherwise
zero channel sends occur. -/
theorem notification_routing_policy (st : MonitorState) (summary : ExecutionSummary) :
    (summary.success = true →
      st.send_notifications summary =
        (if st.config.notification.notify_on_success = true then
          st.notifiers.map (fun n =>
            (NotificationLevel.SUCCESS,
             n summary NotificationLevel.SUCCESS st.config.notification.recipients))
        else [])) ∧
    (summary.success = false →
      st.send_notifications summary =
        (if st.config.notification.notify_on_failure = true then
          st.notifiers.map (fun n =>
            (NotificationLevel.ERROR,
             n summary NotificationLevel.ERROR st.config.notification.recipients))
        else [])) := by
  constructor
  · intro hs
    unfold MonitorState.send_notifications notificationLevel shouldNotify
    rw [hs]
    cases hns : st.config.notification.notify_on_success <;>
      simp [sendLoop_eq_map, List.map_map, Function.comp]
  · intro hs
    unfold MonitorState.send_notifications notificationLevel shouldNotify
    rw [hs]
    cases hnf : st.config.notification.notify_on_failure <;>
      simp [sendLoop_eq_map, List.map_map, Function.comp]

/-- Witness for C4 with `notify_on_success=False, notify_on_failure=True`:
the successful run triggers zero sends, the failing run reaches both
configured channels at level `error`. -/
theorem notification_routing_policy_witness :
    stWit.send_notifications sumOk = [] ∧
    stWit.send_notifications sumFail =
      [(NotificationLevel.ERROR, Except.error "boom"),
       (NotificationLevel.ERROR, Except.ok true)] :=
  ⟨((notification_routing_policy stWit sumOk).1 rfl).trans rfl,
   ((notification_routing_policy stWit sumFail).2 rfl).trans rfl⟩

/-- C1: for a fresh monitored state, exactly one `ExecutionSummary` is
created per process lifetime, whichever way the run ends: the lifecycle's
creation count is 1, a summary is recorded, and when the exception hook has
already created the summary the normal-exit hook performs no further
creation and no further notification dispatch (its attempt trace is empty);
on normal exit the exception hook contributes nothing. -/
theorem summary_created_exactly_once (st : MonitorState) (fs : Option Nat)
    (now : Nat) (outcome : Except PyExc Unit) (hfresh : st.summary = Option.none) :
    (runLifecycle st fs now outcome).created = 1 ∧
    (runLifecycle st fs now outcome).final.summary.isSome = true ∧
    (∀ e, outcome = .error e → (runLifecycle st fs now outcome).exitAttempts = []) ∧
    (outcome = .ok () → (runLifecycle st fs now outcome).excAttempts = []) := by
  cases outcome with
  | error e =>
    refine ⟨?_, ?_, ?_, ?_⟩ <;>
      simp [runLifecycle, exception_handler, exit_handler, MonitorState.create_summary]
  | ok u =>
    refine ⟨?_, ?_, ?_, ?_⟩ <;>
      simp [runLifecycle, exception_handler, exit_handler, hfresh,
        MonitorState.create_summary]

/-- C6: when the monitored run raises, the recorded summary has
`success = False`, `error_message` the exception's message, `exit_code = 1`
and the formatted stack trace, and the original exception still propagates
out of the monitored run — monitoring never suppresses the failure. -/
theorem exception_recorded_and_propagated (st : MonitorState) (fs : Option Nat)
    (now : Nat) (e : PyExc) :
    ∃ s : ExecutionSummary,
      (runLifecycle st fs now (.error e)).final.summary = some s ∧
      s.success = false ∧ s.error_message = some e.message ∧
      s.exit_code = 1 ∧ s.stacktrace = some e.trace ∧
      (runLifecycle st fs now (.error e)).propagated = .error e := by
  refine ⟨(st.create_summary fs now 1 (some e.message) (some e.trace)).summary, ?_, ?_, ?_, ?_, ?_, ?_⟩ <;>
    simp [runLifecycle, exception_handler, exit_handler, MonitorState.create_summary]

/-- An upload is attempted by the archival step exactly when a backend is
wired (storage enabled) and the size strictly exceeds the threshold. -/
theorem uploadStep_snd_iff (st : MonitorState) (fs : Option Nat)
    (hlf : st.log_file ≠ "")
    (hwire : st.storage_backend.isSome = st.config.storage.enabled) :
    (uploadStep st fs).2 = true ↔
      (st.config.storage.enabled = true ∧
        get_file_size_kb fs > (st.config.storage.upload_threshold_kb : ℚ)) := by
  cases hb : st.storage_backend with
  | none =>
    rw [hb] at hwire
    simp [uploadStep, hb, ← hwire]
  | some backend =>
    rw [hb] at hwire
    simp only [uploadStep, hb]
    rw [if_neg hlf]
    by_cases hsz : get_file_size_kb fs > (st.config.storage.upload_threshold_kb : ℚ)
    · rw [if_pos hsz]
      cases hc : backend st.log_file (st.config.app_name ++ "/" ++ basename st.log_file) <;>
        simp [← hwire, hsz]
    · rw [if_neg hsz]
      simp [← hwire, hsz]

/-- When no upload is attempted the archival step yields no URL. -/
theorem uploadStep_none_of_not_attempted (st : MonitorState) (fs : Option Nat)
    (h : (uploadStep st fs).2 = false) : (uploadStep st fs).1 = Option.none := by
  cases hb : st.storage_backend with
  | none => simp [uploadStep, hb]
  | some backend =>
    simp only [uploadStep, hb] at h ⊢
    by_cases hlf : st.log_file = ""
    · simp [hlf]
    · rw [if_neg hlf] at h ⊢
      by_cases hsz : get_file_size_kb fs > (st.config.storage.upload_threshold_kb : ℚ)
      · rw [if_pos hsz] at h ⊢
        cases hc : backend st.log_file (st.config.app_name ++ "/" ++ basename st.log_file) <;>
          simp_all [hc]
      · simp [hsz]

/-- C7: `create_summary` attempts an archival upload iff storage is enabled
(a backend is wired, per the `init_monitoring` wiring invariant `hwire`) and
the log file's size in KB strictly exceeds `upload_threshold_kb`; at or
below the threshold no upload call occurs and the summary's `log_url` is
null. -/
theorem archival_upload_iff_threshold (st : MonitorState) (fs : Option Nat)
    (now : Nat) (ec : Int) (em stk : Option String)
    (hlf : st.log_file ≠ "")
    (hwire : st.storage_backend.isSome = st.config.storage.enabled) :
    ((st.create_summary fs now ec em stk).uploadAttempted = true ↔
      (st.config.storage.enabled = true ∧
        get_file_size_kb fs > (st.config.storage.upload_threshold_kb : ℚ))) ∧
    (get_file_size_kb fs ≤ (st.config.storage.upload_threshold_kb : ℚ) →
      (st.create_summary fs now ec em stk).uploadAttempted = false ∧
      (st.create_summary fs now ec em stk).summary.log_url = Option.none) := by
  have hA : (st.create_summary fs now ec em stk).uploadAttempted = (uploadStep st fs).2 := rfl
  have hU : (st.create_summary fs now ec em stk).summary.log_url = (uploadStep st fs).1 := rfl
  refine ⟨by rw [hA]; exact uploadStep_snd_iff st fs hlf hwire, ?_⟩
  intro hle
  have hno : ¬ (get_file_size_kb fs > (st.config.storage.upload_threshold_kb : ℚ)) :=
    not_lt.mpr hle
  have h2 : (uploadStep st fs).2 = false := by
    cases h : (uploadStep st fs).2
    · rfl
    · exact absurd (((uploadStep_snd_iff st fs hlf hwire).mp h).2) hno
  exact ⟨by rw [hA, h2], by rw [hU, uploadStep_none_of_not_attempted st fs h2]⟩

/-- C8: when the attempted archival upload raises, the failure is contained
inside `create_summary`: the summary is still produced with `log_url` null,
the run's teardown still creates its single summary, and notification
dispatch still proceeds on that summary. -/
theorem upload_failure_recovered (st : MonitorState) (fs : Option Nat) (now : Nat)
    (backend : StorageUpload) (msg : String)
    (hb : st.storage_backend = some backend)
    (hfresh : st.summary = Option.none)
    (hlf : st.log_file ≠ "")
    (hsz : get_file_size_kb fs > (st.config.storage.upload_threshold_kb : ℚ))
    (hfail : backend st.log_file (st.config.app_name ++ "/" ++ basename st.log_file)
      = .error msg) :
    (st.create_summary fs now 0 Option.none Option.none).uploadAttempted = true ∧
    (runLifecycle st fs now (.ok ())).created = 1 ∧
    ∃ s : ExecutionSummary,
      (runLifecycle st fs now (.ok ())).final.summary = some s ∧
      s.log_url = Option.none ∧
      (runLifecycle st fs now (.ok ())).exitAttempts = st.send_notifications s := by
  have hstep : uploadStep st fs = (Option.none, true) := by
    simp only [uploadStep, hb]
    rw [if_neg hlf, if_pos hsz, hfail]
  refine ⟨?_, ?_, (st.create_summary fs now 0 Option.none Option.none).summary, ?_, ?_, ?_⟩
  · show (uploadStep st fs).2 = true
    rw [hstep]
  · simp [runLifecycle, exit_handler, hfresh]
  · simp [runLifecycle, exit_handler, hfresh, MonitorState.create_summary]
  · show (uploadStep st fs).1 = Option.none
    rw [hstep]
  · simp [runLifecycle, exit_handler, hfresh]
    rfl

/-- C9: when the merged configuration lacks `app_name` or `owner`, or the
owner is not email-shaped, `init_monitoring` fails with a `ConfigError`
during validation — before the exception hook or exit hook is registered
(hook registration happens only in the `.ok` branch), so the monitor never
reaches the running state. -/
theorem config_error_fails_fast (raw : RawConfig) (gen_run_id gen_trace_id : String)
    (now : Nat) (notifiers : List Notifier) (backend : StorageUpload)
    (h : raw.app_name = Option.none ∨ raw.owner = Option.none ∨
      ∃ ow, raw.owner = some ow ∧ isEmailShaped ow = false) :
    (init_monitoring raw gen_run_id gen_trace_id now notifiers backend).isOk = false ∧
    ∃ e : ConfigError,
      init_monitoring raw gen_run_id gen_trace_id now notifiers backend = .error e := by
  have hval : ∃ e : ConfigError, validate_monitor_config raw = .error e := by
    rcases h with ha | ho | ⟨ow, how, hbad⟩
    · exact ⟨ConfigError.missing_app_name, by simp [validate_monitor_config, ha]⟩
    · cases han : raw.app_name with
      | none => exact ⟨ConfigError.missing_app_name, by simp [validate_monitor_config, han]⟩
      | some an =>
        exact ⟨ConfigError.missing_owner, by simp [validate_monitor_config, han, ho]⟩
    · cases han : raw.app_name with
      | none => exact ⟨ConfigError.missing_app_name, by simp [validate_monitor_config, han]⟩
      | some an =>
        exact ⟨ConfigError.invalid_owner_email,
          by simp [validate_monitor_config, han, how, hbad]⟩
  obtain ⟨e, he⟩ := hval
  have h2 : init_monitoring raw gen_run_id gen_trace_id now notifiers backend
      = .error e := by simp [init_monitoring, he]
  exact ⟨by rw [h2]; rfl, ⟨e, h2⟩⟩

/-- C10: the file-size computation is total — a missing or unreadable log
file (`OSError`) yields `0.0` KB — so for any non-negative threshold no
upload is attempted and the summary's `log_url` is null. -/
theorem file_size_missing_safe (st : MonitorState) (now : Nat) (ec : Int)
    (em stk : Option String)
    (hthr : 0 ≤ st.config.storage.upload_threshold_kb) :
    get_file_size_kb Option.none = 0 ∧
    (st.create_summary Option.none now ec em stk).uploadAttempted = false ∧
    (st.create_summary Option.none now ec em stk).summary.log_url = Option.none := by
  have hno : ¬ (get_file_size_kb Option.none
      > (st.config.storage.upload_threshold_kb : ℚ)) := by
    have : (0 : ℚ) ≤ (st.config.storage.upload_threshold_kb : ℚ) := by
      exact_mod_cast hthr
    simp [get_file_size_kb]
    linarith
  have hstep : (uploadStep st Option.none).2 = false := by
    cases hb : st.storage_backend with
    | none => simp [uploadStep, hb]
    | some backend =>
      simp only [uploadStep, hb]
      by_cases hlf : st.log_file = ""
      · simp [hlf]
      · rw [if_neg hlf, if_neg hno]
  refine ⟨rfl, hstep, ?_⟩
  show (uploadStep st Option.none).1 = Option.none
  exact uploadStep_none_of_not_attempted st Option.none hstep

/-- Witness for C1 at a concrete fresh state ending normally. -/
theorem summary_created_exactly_once_witness :
    (runLifecycle stWit Option.none 130 (.ok ())).created = 1 ∧
    (runLifecycle stWit Option.none 130 (.ok ())).final.summary.isSome = true ∧
    (runLifecycle stWit Option.none 130 (.ok ())).excAttempts = [] :=
  ⟨(summary_created_exactly_once stWit Option.none 130 (.ok ()) rfl).1,
   (summary_created_exactly_once stWit Option.none 130 (.ok ()) rfl).2.1,
   (summary_created_exactly_once stWit Option.none 130 (.ok ()) rfl).2.2.2 rfl⟩

/-- Witness for C7: a 300 KB log is uploaded past the 200 KB threshold, a
100 KB log is not and records no URL. -/
theorem archival_upload_iff_threshold_witness :
    (stUp.create_summary (some 307200) 130 0 Option.none Option.none).uploadAttempted
      = true ∧
    (stUp.create_summary (some 102400) 130 0 Option.none Option.none).uploadAttempted
      = false ∧
    (stUp.create_summary (some 102400) 130 0 Option.none Option.none).summary.log_url
      = Option.none :=
  ⟨((archival_upload_iff_threshold stUp (some 307200) 130 0 Option.none Option.none
      (by decide) rfl).1).mpr ⟨rfl, by norm_num [get_file_size_kb, stUp, stWit, cfgMon]⟩,
   ((archival_upload_iff_threshold stUp (some 102400) 130 0 Option.none Option.none
      (by decide) rfl).2 (by norm_num [get_file_size_kb, stUp, stWit, cfgMon])).1,
   ((archival_upload_iff_threshold stUp (some 102400) 130 0 Option.none Option.none
      (by decide) rfl).2 (by norm_num [get_file_size_kb, stUp, stWit, cfgMon])).2⟩

/-- Witness for C8: a raising backend at 300 KB — the upload is attempted,
yet teardown still records its single summary. -/
theorem upload_failure_recovered_witness :
    (stUpFail.create_summary (some 307200) 130 0 Option.none Option.none).uploadAttempted
      = true ∧
    (runLifecycle stUpFail (some 307200) 130 (.ok ())).created = 1 :=
  ⟨(upload_failure_recovered stUpFail (some 307200) 130 backendRaises "denied"
      rfl rfl (by decide) (by norm_num [get_file_size_kb, stUpFail, stWit, cfgMon]) rfl).1,
   (upload_failure_recovered stUpFail (some 307200) 130 backendRaises "denied"
      rfl rfl (by decide) (by norm_num [get_file_size_kb, stUpFail, stWit, cfgMon]) rfl).2.1⟩

/-- Witness for C9: a non-email-shaped owner makes initialization fail. -/
theorem config_error_fails_fast_witness :
    (init_monitoring rawBadOwner "gen-run" "gen-trace" 0 [] backendUp).isOk = false :=
  (config_error_fails_fast rawBadOwner "gen-run" "gen-trace" 0 [] backendUp
    (Or.inr (Or.inr ⟨"not-an-email", rfl, by decide⟩))).1

/-- Witness for C10 at a concrete storage-enabled state. -/
theorem file_size_missing_safe_witness :
    get_file_size_kb Option.none = 0 ∧
    (stUp.create_summary Option.none 130 0 Option.none Option.none).uploadAttempted
      = false ∧
    (stUp.create_summary Option.none 130 0 Option.none Option.none).summary.log_url
      = Option.none :=
  file_size_missing_safe stUp 130 0 Option.none Option.none (by decide)

/-- Wiring invariant established by `init_monitoring`: a storage backend is
wired into the monitor state exactly when storage is enabled (this justifies
the `hwire` hypothesis of the archival theorems). -/
theorem init_storage_wiring (raw : RawConfig) (gen_run_id gen_trace_id : String)
    (now : Nat) (notifiers : List Notifier) (backend : StorageUpload)
    (r : InitResult)
    (h : init_monitoring raw gen_run_id gen_trace_id now notifiers backend = .ok r) :
    r.state.storage_backend.isSome = r.state.config.storage.enabled := by
  unfold init_monitoring at h
  cases hv : validate_monitor_config raw with
  | error e => rw [hv] at h; cases h
  | ok cfg0 =>
    rw [hv] at h
    cases h
    cases he : cfg0.storage.enabled <;> simp [he]
